import Mathlib

/-!
Shallow embedding of the reconciliation core of `reconcile_payouts.py`
(and, where a claim cites it, of the legacy `old_daily_reconcile_payouts.py`).

Conventions of the embedding:
* money amounts are rationals (`ℚ`), mirroring the decimal arithmetic the
  scripts perform on parsed CSV/API amounts;
* a timezone-aware instant is an `Int`, the number of minutes since the Unix
  epoch (UTC-anchored); a timezone is its offset from UTC in minutes at the
  instants of interest (US/Eastern in January is −300);
* a calendar date is an `Int`, the number of days since 1970-01-01 in the
  target timezone (`str(date)` keys of the Python dicts are in bijection with
  these day numbers, and the lexicographic order on ISO date strings agrees
  with the order on day numbers);
* the per-date accumulator map `by_date` (a `defaultdict` of
  `defaultdict(float)`) is a total function `Int → String → ℚ` defaulting to
  zero, together with the list `dates` of outer keys that have been touched
  (Python dict keys); inner string keys are kept verbatim, including the
  dynamic `f"{gateway}_{kind.lower()}"` keys of line 677.
-/

/-- Calendar-date bucketing: convert a UTC-anchored instant (minutes since the
epoch) to the timezone with offset `off` minutes and truncate to the calendar
day. Embeds `pd.to_datetime(x).tz_convert(tz).date()`. -/
def localDay (t off : Int) : Int := (t + off).fdiv 1440

/-- Days since 1970-01-01 of the civil date `y-m-d` (proleptic Gregorian),
used to write concrete calendar dates readably. -/
def daysFromCivil (y m d : Int) : Int :=
  let y1 : Int := if m ≤ 2 then y - 1 else y
  let era : Int := y1.fdiv 400
  let yoe : Int := y1 - era * 400
  let mp : Int := (m + 9) % 12
  let doy : Int := (153 * mp + 2).fdiv 5 + d - 1
  let doe : Int := yoe * 365 + yoe.fdiv 4 - yoe.fdiv 100 + doy
  era * 146097 + doe - 719468

/-- Minutes since the epoch of the instant `y-m-d hh:mm` UTC. -/
def civilMinutes (y m d hh mm : Int) : Int :=
  daysFromCivil y m d * 1440 + hh * 60 + mm

/-- One order transaction as consumed by `parse_orders` (id, gateway, kind,
status, `amountSet` money value, `processedAt` instant). -/
structure Txn where
  tid : String
  gateway : String
  kind : String
  status : String
  amount : ℚ
  processedAt : Int
deriving DecidableEq

/-- One order record as consumed by `parse_orders`: name, timestamps and the
order-level money totals of lines 553-562. -/
structure Order where
  name : String
  createdAt : Int
  processedAt : Int
  subtotal : ℚ
  discounts : ℚ
  tax : ℚ
  shipping : ℚ
  tips : ℚ
  netPayment : ℚ
  totalRefunded : ℚ
  outstanding : ℚ
  transactions : List Txn
deriving DecidableEq

/-- One payout-ledger row after `load_payout_csv` normalisation: the Payout
Date instant (UTC-anchored), Payout Status, Type, and the numeric
Payout Amount / Payout Fee / Payout Net Deposit columns. -/
structure PayoutRow where
  payoutAt : Int
  status : String
  ptype : String
  amount : ℚ
  fee : ℚ
  net : ℚ
deriving DecidableEq

/-- `by_date[d][k] += v` on the nested defaultdict. -/
def bump (f : Int → String → ℚ) (d : Int) (k : String) (v : ℚ) :
    Int → String → ℚ :=
  fun d' k' => if d' = d ∧ k' = k then f d' k' + v else f d' k'

/-- Append an element to the list stored at key `d` of a defaultdict(list). -/
def pushAt (f : Int → List String) (d : Int) (x : String) :
    Int → List String :=
  fun d' => if d' = d then f d' ++ [x] else f d'

/-- State threaded through `parse_orders`: the `by_date` accumulator map with
its set of touched date keys, `detailed_transactions` (reduced to the
transaction ids recorded per date), `order_info_by_date` (reduced to the order
names recorded per date; the dataframe only uses its per-date length), and the
`processed_orders` deduplication set. -/
structure ParseState where
  by_date : Int → String → ℚ
  dates : List Int
  detailed : Int → List String
  orderInfo : Int → List String
  processed : List String

def initState : ParseState :=
  { by_date := fun _ _ => 0
    dates := []
    detailed := fun _ => []
    orderInfo := fun _ => []
    processed := [] }

/-- `kind.lower()` with the transaction-kind enum values (authorization, sale,
capture, refund, change per the upstream API) tabulated, so that the function
reduces definitionally on them; other strings fall through to
`String.toLower`. -/
def kindLower (k : String) : String :=
  if k = "AUTHORIZATION" then "authorization"
  else if k = "SALE" then "sale"
  else if k = "CAPTURE" then "capture"
  else if k = "REFUND" then "refund"
  else if k = "CHANGE" then "change"
  else k.toLower

/-- The `kind_mapping` dict of lines 602-609, with `.get(kind, kind.lower())`. -/
def payoutTypeOfKind (k : String) : String :=
  if k = "AUTHORIZATION" ∨ k = "SALE" ∨ k = "CAPTURE" then "charge"
  else if k = "REFUND" then "refund"
  else kindLower k

/-- `mapping_key = f"{order_name}_{payout_type}"` (line 610). -/
def mappingKey (oname ptype : String) : String := oname ++ "_" ++ ptype

/-- First pass over an order's transactions (lines 589-625): find whether the
order has a credit-card (shopify_payments) payment, a cash-like payment, and
its payout date. `m` is the order-name→payout-date mapping (empty list models
a falsy `payout_mapping`); a successful mapping lookup breaks out of the
loop. -/
def firstPass (m : List (String × Int)) (off : Int) (oname : String) :
    List Txn → Bool → Bool → Option Int → Bool × Bool × Option Int
  | [], cc, cash, pd => (cc, cash, pd)
  | t :: ts, cc, cash, pd =>
    if t.status ≠ "SUCCESS" then firstPass m off oname ts cc cash pd
    else if t.gateway = "shopify_payments" ∧
        (t.kind = "AUTHORIZATION" ∨ t.kind = "SALE") then
      if m ≠ [] then
        match m.lookup (mappingKey oname (payoutTypeOfKind t.kind)) with
        | some pdate => (true, cash, some pdate)
        | none => firstPass m off oname ts true cash pd
      else firstPass m off oname ts true cash pd
    else if (t.gateway = "cash" ∨ t.gateway = "gift_card" ∨
        t.gateway = "shop_cash") ∧ t.kind = "SALE" then
      firstPass m off oname ts cc true
        (if pd = none then some (localDay t.processedAt off) else pd)
    else firstPass m off oname ts cc cash pd

/-- Gateway categorisation of one transaction (lines 680-707), applied at the
already-chosen final date. The `manual` branch is reproduced from the source
even though the date-selection step in front of it never lets a `manual`
transaction through. -/
def categorize (f : Int → String → ℚ) (final : Int) (t : Txn) :
    Int → String → ℚ :=
  if t.gateway = "shopify_payments" then
    if t.kind = "AUTHORIZATION" then bump f final "shopify_payments" t.amount
    else if t.kind = "SALE" then bump f final "shopify_payments" t.amount
    else if t.kind = "REFUND" then
      bump f final "shopify_payments_refunds" (-t.amount)
    else f
  else if t.gateway = "cash" then
    if t.kind = "SALE" then bump f final "cash" t.amount
    else if t.kind = "REFUND" then bump f final "cash_refunds" (-t.amount)
    else f
  else if t.gateway = "manual" then
    if t.kind = "SALE" then bump f final "shopify_payments" t.amount
    else if t.kind = "REFUND" then
      bump f final "shopify_payments_refunds" (-t.amount)
    else f
  else if t.gateway = "gift_card" then
    if t.kind = "SALE" then bump f final "gift_card" t.amount
    else if t.kind = "REFUND" then bump f final "gift_card_refunds" (-t.amount)
    else f
  else if t.gateway = "shop_cash" then
    if t.kind = "AUTHORIZATION" ∨ t.kind = "SALE" then
      bump f final "shop_cash" t.amount
    else if t.kind = "REFUND" then bump f final "shop_cash_refunds" (-t.amount)
    else f
  else f

/-- Second pass over one transaction (lines 652-721): choose the final date
(payout date for shopify_payments when one exists, processedAt date for
cash-like gateways, skip anything else), then record the raw
`{gateway}_{kind.lower()}` key, categorise, and append the detailed record. -/
def stepTxn (off : Int) (pdate : Option Int) (s : ParseState) (t : Txn) :
    ParseState :=
  if t.status ≠ "SUCCESS" then s
  else
    let txnDay := localDay t.processedAt off
    if t.gateway = "shopify_payments" ∧ pdate ≠ none then
      recordAt (pdate.getD 0) s t
    else if t.gateway = "cash" ∨ t.gateway = "gift_card" ∨
        t.gateway = "shop_cash" then
      recordAt txnDay s t
    else s
where
  recordAt (final : Int) (s : ParseState) (t : Txn) : ParseState :=
    { s with
      by_date :=
        categorize
          (bump s.by_date final (t.gateway ++ "_" ++ kindLower t.kind) t.amount)
          final t
      dates := s.dates ++ [final]
      detailed := pushAt s.detailed final t.tid }

/-- Processing of one order (lines 541-721): compute the order-level totals,
run the first pass, skip orders without a recognised payment method or payout
date, allocate order-level totals once per order name, then fold the second
pass over the transactions. -/
def stepOrder (m : List (String × Int)) (off : Int) (s : ParseState)
    (o : Order) : ParseState :=
  let netSales := o.subtotal
  let grossSales := netSales + o.discounts
  let fundsCollected := netSales + o.tax + o.shipping + o.tips
  let fp := firstPass m off o.name o.transactions false false none
  let cc := fp.1
  let cash := fp.2.1
  let pdate := fp.2.2
  if (¬cc ∧ ¬cash) ∨ pdate = none then s
  else
    let pd := pdate.getD 0
    let s1 :=
      if o.name ∈ s.processed then s
      else
        { s with
          by_date :=
            bump (bump (bump (bump (bump (bump (bump (bump (bump (bump (bump
              s.by_date
              pd "gross_sales" grossSales)
              pd "net_sales" netSales)
              pd "discounts" o.discounts)
              pd "tax" o.tax)
              pd "shipping" o.shipping)
              pd "tips" o.tips)
              pd "order_refunds" o.totalRefunded)
              pd "net_payment" o.netPayment)
              pd "outstanding" o.outstanding)
              pd "funds_collected" fundsCollected)
              pd "order_count" 1
          dates := s.dates ++ [pd]
          orderInfo := pushAt s.orderInfo pd o.name
          processed := o.name :: s.processed }
    o.transactions.foldl (stepTxn off pdate) s1

/-- `parse_orders(order_data, ..., payout_mapping)` for the chosen timezone. -/
def parseOrders (orders : List Order) (m : List (String × Int)) (off : Int) :
    ParseState :=
  orders.foldl (stepOrder m off) initState

/-- One output record of `generate_reconciliation_dataframe` (numeric and
boolean fields; the purely cosmetic string fields are not modelled). -/
structure Row where
  date : Int
  order_count : Nat
  sales_gross_sales : ℚ
  sales_discounts : ℚ
  sales_net_sales : ℚ
  sales_tax : ℚ
  sales_shipping : ℚ
  sales_tips : ℚ
  sales_funds_collected : ℚ
  sales_order_count : ℚ
  payments_shopify_payments : ℚ
  payments_cash : ℚ
  payments_gift_card : ℚ
  payments_shop_cash : ℚ
  payments_other : ℚ
  payments_shopify_refunds : ℚ
  payments_cash_refunds : ℚ
  payments_gift_card_refunds : ℚ
  payments_shop_cash_refunds : ℚ
  payments_other_refunds : ℚ
  payments_cash_change : ℚ
  payments_total_refunds : ℚ
  shopify_payments_amount : ℚ
  shopify_payout_refunds : ℚ
  shopify_gross_charges : ℚ
  shopify_fees : ℚ
  shopify_net_deposit : ℚ
  payout_count : Nat
  payout_type_adjustment : ℚ
  payout_type_chargeback : ℚ
  payout_type_chargeback_won : ℚ
  payout_type_shop_cash_credit : ℚ
  payout_type_other : ℚ
  pending_payout_amount : ℚ
  pending_payout_count : Nat
  reconciliation_difference : ℚ
  reconciliation_mismatch : Bool
  reconciliation_order_side_net : ℚ
  reconciliation_payout_side_net : ℚ
  sales_vs_payments_expected : ℚ
  sales_vs_payments_actual_gross : ℚ
  sales_vs_payments_actual_net : ℚ
  sales_vs_payments_difference : ℚ
  sales_vs_payments_mismatch : Bool
deriving DecidableEq

def sumAmounts (l : List PayoutRow) : ℚ := (l.map PayoutRow.amount).sum

/-- Build the reconciliation record for one date (lines 797-979). `bd` is the
order-side accumulator map, `oi` the per-date order names, `rows` the payout
ledger, `off` the target-timezone offset. -/
def mkRow (bd : Int → String → ℚ) (oi : Int → List String)
    (rows : List PayoutRow) (off : Int) (d : Int) : Row :=
  let metrics := bd d
  let payoutDayRows := rows.filter (fun r => localDay r.payoutAt off == d)
  let paid := payoutDayRows.filter (fun r => r.status == "paid")
  let refundRows := paid.filter (fun r => r.ptype == "refund")
  let chargeRows := paid.filter (fun r => r.ptype == "charge")
  let adjustmentRows := paid.filter (fun r => r.ptype == "adjustment")
  let chargebackRows := paid.filter (fun r => r.ptype == "chargeback")
  let chargebackWonRows := paid.filter (fun r => r.ptype == "chargeback won")
  let shopCashCreditRows :=
    paid.filter (fun r => r.ptype == "shop_cash_credit")
  let otherRows := paid.filter (fun r =>
    !(r.ptype == "charge" || r.ptype == "refund" || r.ptype == "adjustment" ||
      r.ptype == "chargeback" || r.ptype == "chargeback won" ||
      r.ptype == "shop_cash_credit"))
  let chargeAndRefundRows :=
    paid.filter (fun r => r.ptype == "charge" || r.ptype == "refund")
  let shopifyNetPayments := sumAmounts chargeAndRefundRows
  let shopifyPayoutRefunds := |sumAmounts refundRows|
  let shopifyGrossCharges := sumAmounts chargeRows
  let shopifyFees := (paid.map PayoutRow.fee).sum
  let shopifyNetDeposit := (paid.map PayoutRow.net).sum
  let pendingRows := payoutDayRows.filter (fun r => !(r.status == "paid"))
  let orderSideGross := metrics "shopify_payments"
  let orderSideRefunds := metrics "shopify_payments_refunds"
  let orderSideNet := orderSideGross - orderSideRefunds
  let payoutSideNet := shopifyNetPayments
  let mismatch :=
    if payoutSideNet ≠ 0 then
      decide (|orderSideNet - payoutSideNet| > 1 / 100)
    else false
  let totalPaymentsGross := metrics "shopify_payments" + metrics "cash" +
    metrics "gift_card" + metrics "shop_cash"
  let totalRefundsAll := metrics "shopify_payments_refunds" +
    metrics "cash_refunds" + metrics "gift_card_refunds" +
    metrics "shop_cash_refunds"
  let totalPaymentsNet := totalPaymentsGross - totalRefundsAll
  let expectedFunds := metrics "funds_collected"
  let svpDiff := expectedFunds - totalPaymentsNet
  let svpMismatch :=
    if expectedFunds ≠ 0 then decide (|svpDiff| > 1 / 100) else false
  { date := d
    order_count := (oi d).length
    sales_gross_sales := metrics "gross_sales"
    sales_discounts := -(metrics "discounts")
    sales_net_sales := metrics "net_sales"
    sales_tax := metrics "tax"
    sales_shipping := metrics "shipping"
    sales_tips := metrics "tips"
    sales_funds_collected := metrics "funds_collected"
    sales_order_count := metrics "order_count"
    payments_shopify_payments := metrics "shopify_payments"
    payments_cash := metrics "cash"
    payments_gift_card := metrics "gift_card"
    payments_shop_cash := metrics "shop_cash"
    payments_other := metrics "other_payments"
    payments_shopify_refunds := metrics "shopify_payments_refunds"
    payments_cash_refunds := metrics "cash_refunds"
    payments_gift_card_refunds := metrics "gift_card_refunds"
    payments_shop_cash_refunds := metrics "shop_cash_refunds"
    payments_other_refunds := metrics "other_refunds"
    payments_cash_change := metrics "cash_change"
    payments_total_refunds := metrics "order_refunds"
    shopify_payments_amount := shopifyNetPayments
    shopify_payout_refunds := shopifyPayoutRefunds
    shopify_gross_charges := shopifyGrossCharges
    shopify_fees := -shopifyFees
    shopify_net_deposit := shopifyNetDeposit
    payout_count := paid.length
    payout_type_adjustment := sumAmounts adjustmentRows
    payout_type_chargeback := sumAmounts chargebackRows
    payout_type_chargeback_won := sumAmounts chargebackWonRows
    payout_type_shop_cash_credit := sumAmounts shopCashCreditRows
    payout_type_other := sumAmounts otherRows
    pending_payout_amount := sumAmounts pendingRows
    pending_payout_count := pendingRows.length
    reconciliation_difference := orderSideNet - payoutSideNet
    reconciliation_mismatch := mismatch
    reconciliation_order_side_net := orderSideNet
    reconciliation_payout_side_net := payoutSideNet
    sales_vs_payments_expected := expectedFunds
    sales_vs_payments_actual_gross := totalPaymentsGross
    sales_vs_payments_actual_net := totalPaymentsNet
    sales_vs_payments_difference := svpDiff
    sales_vs_payments_mismatch := svpMismatch }

/-- Insert an element into a strictly sorted list, keeping it strictly sorted
and duplicate-free. -/
def insertSorted (x : Int) : List Int → List Int
  | [] => [x]
  | y :: ys =>
    if x < y then x :: y :: ys
    else if x = y then y :: ys
    else y :: insertSorted x ys

/-- `sorted(set(l))`: the strictly increasing enumeration of the elements. -/
def sortedDedup (l : List Int) : List Int := l.foldr insertSorted []

/-- `generate_reconciliation_dataframe`: one record per calendar date in the
union of the order-side date keys and the payout-ledger payout dates, emitted
in sorted order (the final `sort_values(by="date")` is a stable re-sort of an
already sorted sequence). -/
def generateRecon (st : ParseState) (rows : List PayoutRow) (off : Int) :
    List Row :=
  (sortedDedup
      (st.dates ++ rows.map (fun r => localDay r.payoutAt off))).map
    (mkRow st.by_date st.orderInfo rows off)

/-! Legacy per-order transaction categorisation of
`old_daily_reconcile_payouts.py` lines 426-475 (`payment_totals`). -/

/-- `payment_totals[k] += v` on the flat per-order dict. -/
def addKey (f : String → ℚ) (k : String) (v : ℚ) : String → ℚ :=
  fun k' => if k' = k then f k' + v else f k'

/-- One transaction of the legacy categorisation (lines 426-475): unknown
gateways fall through to the `other_payments` / `other_refunds` buckets. -/
def oldStepTxn (f : String → ℚ) (t : Txn) : String → ℚ :=
  if t.status ≠ "SUCCESS" then f
  else if t.gateway = "shopify_payments" then
    if t.kind = "AUTHORIZATION" then addKey f "shopify_payments" t.amount
    else if t.kind = "SALE" then addKey f "shopify_payments" t.amount
    else if t.kind = "REFUND" then addKey f "shopify_payments_refunds" t.amount
    else f
  else if t.gateway = "cash" then
    if t.kind = "SALE" then addKey f "cash" t.amount
    else if t.kind = "REFUND" then addKey f "cash_refunds" t.amount
    else if t.kind = "CHANGE" then addKey f "cash_change" t.amount
    else f
  else if t.gateway = "manual" then
    if t.kind = "SALE" then addKey f "manual" t.amount
    else if t.kind = "REFUND" then addKey f "manual_refunds" t.amount
    else f
  else if t.gateway = "gift_card" then
    if t.kind = "SALE" then addKey f "gift_card" t.amount
    else if t.kind = "REFUND" then addKey f "gift_card_refunds" t.amount
    else f
  else if t.gateway = "shop_cash" then
    if t.kind = "AUTHORIZATION" then addKey f "shop_cash" t.amount
    else if t.kind = "SALE" then addKey f "shop_cash" t.amount
    else if t.kind = "REFUND" then addKey f "shop_cash_refunds" t.amount
    else f
  else
    if t.kind = "SALE" ∨ t.kind = "AUTHORIZATION" then
      addKey f "other_payments" t.amount
    else if t.kind = "REFUND" then addKey f "other_refunds" t.amount
    else f

/-- The legacy script's per-order `payment_totals` fold. -/
def oldPaymentTotals (ts : List Txn) : String → ℚ :=
  ts.foldl oldStepTxn (fun _ => 0)

/-! Auxiliary predicates and key sets used by the claims. -/

/-- The transaction-kind enum of the upstream API (authorization / sale /
capture / refund / change, per the data model). -/
def StdKinds : List String :=
  ["AUTHORIZATION", "SALE", "CAPTURE", "REFUND", "CHANGE"]

/-- All transactions of all orders carry a standard kind tag. -/
def wellFormedKinds (orders : List Order) : Prop :=
  ∀ o ∈ orders, ∀ t ∈ o.transactions, t.kind ∈ StdKinds

/-- The order-level accumulator keys allocated once per order name
(lines 568-579 and the `order_count` of line 639). -/
def OrderLevelKeys : List String :=
  ["gross_sales", "net_sales", "discounts", "tax", "shipping", "tips",
   "order_refunds", "net_payment", "outstanding", "funds_collected",
   "order_count"]

/-- Keys never written by the transaction pass: the order-level keys plus the
two `other` buckets that `parse_orders` never touches. -/
def ProtectedKeys : List String :=
  OrderLevelKeys ++ ["other_payments", "other_refunds"]

/-- Sum of the Payout Amount column over the paid rows of type `ty` whose
payout date buckets to `d` — the spec-side recomputation of a per-type
bucket. -/
def sumByType (rows : List PayoutRow) (off : Int) (d : Int) (ty : String) :
    ℚ :=
  ((rows.filter (fun r =>
      (localDay r.payoutAt off == d) &&
        ((r.status == "paid") && (r.ptype == ty)))).map PayoutRow.amount).sum

/-- All order-side numeric fields of a reconciliation record are zero. -/
def OrderSideZero (r : Row) : Prop :=
  r.order_count = 0 ∧ r.sales_gross_sales = 0 ∧ r.sales_discounts = 0 ∧
  r.sales_net_sales = 0 ∧ r.sales_tax = 0 ∧ r.sales_shipping = 0 ∧
  r.sales_tips = 0 ∧ r.sales_funds_collected = 0 ∧ r.sales_order_count = 0 ∧
  r.payments_shopify_payments = 0 ∧ r.payments_cash = 0 ∧
  r.payments_gift_card = 0 ∧ r.payments_shop_cash = 0 ∧
  r.payments_other = 0 ∧ r.payments_shopify_refunds = 0 ∧
  r.payments_cash_refunds = 0 ∧ r.payments_gift_card_refunds = 0 ∧
  r.payments_shop_cash_refunds = 0 ∧ r.payments_other_refunds = 0 ∧
  r.payments_cash_change = 0 ∧ r.payments_total_refunds = 0 ∧
  r.reconciliation_order_side_net = 0

/-- All payout-side numeric fields of a reconciliation record are zero. -/
def PayoutSideZero (r : Row) : Prop :=
  r.shopify_payments_amount = 0 ∧ r.shopify_payout_refunds = 0 ∧
  r.shopify_gross_charges = 0 ∧ r.shopify_fees = 0 ∧
  r.shopify_net_deposit = 0 ∧ r.payout_count = 0 ∧
  r.payout_type_adjustment = 0 ∧ r.payout_type_chargeback = 0 ∧
  r.payout_type_chargeback_won = 0 ∧ r.payout_type_shop_cash_credit = 0 ∧
  r.payout_type_other = 0 ∧ r.pending_payout_amount = 0 ∧
  r.pending_payout_count = 0 ∧ r.reconciliation_payout_side_net = 0

/-! Concrete inputs used by the per-claim evaluations. -/

def zeroBD : Int → String → ℚ := fun _ _ => 0

def emptyInfo : Int → List String := fun _ => []

/-- Order-side map with net card receipts 100.01 on day 0. -/
def bdTolEq : Int → String → ℚ :=
  fun d k => if d = 0 ∧ k = "shopify_payments" then 10001 / 100 else 0

/-- Order-side map with net card receipts 100.011 on day 0. -/
def bdTolGt : Int → String → ℚ :=
  fun d k => if d = 0 ∧ k = "shopify_payments" then 100011 / 1000 else 0

/-- Order-side map with net card receipts 50 on day 0. -/
def bdFifty : Int → String → ℚ :=
  fun d k => if d = 0 ∧ k = "shopify_payments" then 50 else 0

/-- A paid charge ledger row of 100 settling on day 0. -/
def rowCharge100 : PayoutRow := ⟨0, "paid", "charge", 100, 2, 98⟩

/-- A paid refund ledger row with ledger-native Amount −45 on day 0. -/
def rowRefundNeg45 : PayoutRow := ⟨0, "paid", "refund", -45, 0, -45⟩

def saleTxn100 : Txn := ⟨"t1", "shopify_payments", "SALE", "SUCCESS", 100, 0⟩

def refundTxn45 : Txn := ⟨"t2", "shopify_payments", "REFUND", "SUCCESS", 45, 0⟩

/-- Order with one successful card sale of 100 and one successful card refund
of 45 (the refund amount is the positive magnitude the API reports). -/
def oC2 : Order :=
  ⟨"#1001", 0, 0, 0, 0, 0, 0, 0, 0, 0, 0, [saleTxn100, refundTxn45]⟩

/-- Payout mapping sending the charge of order #1001 to day 10. -/
def mC2 : List (String × Int) := [(mappingKey "#1001" "charge", 10)]

/-- Mapping with a single irrelevant entry (a truthy `payout_mapping`). -/
def mDummy : List (String × Int) := [("zz", 0)]

/-- Order paying X by card authorization followed by a capture of X. -/
def authCaptureOrder (X : ℚ) : Order :=
  ⟨"#A", 0, 0, 0, 0, 0, 0, 0, 0, 0, 0,
    [⟨"t1", "shopify_payments", "AUTHORIZATION", "SUCCESS", X, 0⟩,
     ⟨"t2", "shopify_payments", "CAPTURE", "SUCCESS", X, 0⟩]⟩

/-- Order with a single card authorization of X. -/
def spAuthOrder (X : ℚ) : Order :=
  ⟨"#A", 0, 0, 0, 0, 0, 0, 0, 0, 0, 0,
    [⟨"t1", "shopify_payments", "AUTHORIZATION", "SUCCESS", X, 0⟩]⟩

/-- Order with a single card sale of X. -/
def spSaleOrder (X : ℚ) : Order :=
  ⟨"#A", 0, 0, 0, 0, 0, 0, 0, 0, 0, 0,
    [⟨"t1", "shopify_payments", "SALE", "SUCCESS", X, 0⟩]⟩

/-- Mapping sending the charge of order #A to day d0. -/
def mA (d0 : Int) : List (String × Int) := [(mappingKey "#A" "charge", d0)]

/-- Order with a single successful manually-entered-card sale of X. -/
def manualSaleOrder (X : ℚ) : Order :=
  ⟨"#M", 0, 0, 0, 0, 0, 0, 0, 0, 0, 0,
    [⟨"t1", "manual", "SALE", "SUCCESS", X, 0⟩]⟩

/-- Order with a mapped card sale of 100 and a successful transaction of 10
on an unrecognised gateway. -/
def oC7 : Order :=
  ⟨"#P", 0, 0, 0, 0, 0, 0, 0, 0, 0, 0,
    [⟨"t1", "shopify_payments", "SALE", "SUCCESS", 100, 0⟩,
     ⟨"t2", "paypal", "SALE", "SUCCESS", 10, 0⟩]⟩

/-- Payout mapping sending the charge of order #P to day 5. -/
def mC7 : List (String × Int) := [(mappingKey "#P" "charge", 5)]

/-- Successful transaction of X on an unrecognised gateway, for the legacy
categorisation. -/
def paypalTxn (k : String) (X : ℚ) : Txn := ⟨"t", "paypal", k, "SUCCESS", X, 0⟩

/-- Order with a card-like payment whose order name has no entry in the
payout-date mapping. -/
def oC8 : Order :=
  ⟨"#9", 0, 0, 0, 0, 0, 0, 0, 0, 0, 0,
    [⟨"t1", "shopify_payments", "SALE", "SUCCESS", 100, 0⟩]⟩

/-- Nonempty mapping with no entry for order #9. -/
def mC8 : List (String × Int) := [("zz", 3)]

/-- Order paid in cash (amount X) with its transaction processed at the
UTC-anchored instant τ. -/
def cashOrderAt (τ : Int) (X : ℚ) : Order :=
  ⟨"#C", τ, τ, 0, 0, 0, 0, 0, 0, 0, 0,
    [⟨"t1", "cash", "SALE", "SUCCESS", X, τ⟩]⟩

/-- Order named #D paid in cash on day 0, with order-level totals. -/
def oDupA : Order :=
  ⟨"#D", 0, 0, 30, 3, 2, 1, 1, 33, 0, 0,
    [⟨"t1", "cash", "SALE", "SUCCESS", 33, 0⟩]⟩

/-- A second order record with the same name #D and different totals. -/
def oDupB : Order :=
  ⟨"#D", 0, 0, 7, 0, 0, 0, 0, 7, 0, 0,
    [⟨"t2", "cash", "SALE", "SUCCESS", 7, 0⟩]⟩

/-- Dates never touched by the order fold have an all-zero accumulator row
and no recorded order info (the `defaultdict` has no such key). -/
def UntouchedZero (s : ParseState) : Prop :=
  ∀ d : Int, d ∉ s.dates → (∀ k, s.by_date d k = 0) ∧ s.orderInfo d = []

/-- Two parse states with the same deduplication set that agree on every
order-level accumulator entry. -/
def OrderLevelAgree (s t : ParseState) : Prop :=
  s.processed = t.processed ∧
  ∀ (d : Int) (k : String), k ∈ OrderLevelKeys →
    s.by_date d k = t.by_date d k

/-! General evaluation lemmas. -/

theorem bump_apply (f : Int → String → ℚ) (d : Int) (k : String) (v : ℚ)
    (d' : Int) (k' : String) :
    bump f d k v d' k' = if d' = d ∧ k' = k then f d' k' + v else f d' k' :=
  rfl

theorem pushAt_apply (f : Int → List String) (d : Int) (x : String)
    (d' : Int) :
    pushAt f d x d' = if d' = d then f d' ++ [x] else f d' := rfl

/-- The mismatch formula of line 943 as a proposition. -/
theorem mismatch_formula_iff (o p : ℚ) :
    ((if p ≠ 0 then decide (|o - p| > 1 / 100) else false) = true) ↔
      (p ≠ 0 ∧ |o - p| > 1 / 100) := by
  by_cases hp : p = 0 <;> simp [hp]

/-- C1: for every reconciliation record, the mismatch flag is true iff the
payout-side net amount is nonzero and the absolute difference between the
order-side net and the payout-side net strictly exceeds 0.01; a date whose
difference is exactly 0.01 is not flagged, 0.011 is flagged, and a date with
zero payout-side net is never flagged even when the order side is nonzero. -/
theorem C1_mismatch_flag :
    (∀ (bd : Int → String → ℚ) (oi : Int → List String)
        (rows : List PayoutRow) (off d : Int),
      ((mkRow bd oi rows off d).reconciliation_mismatch = true ↔
        ((mkRow bd oi rows off d).reconciliation_payout_side_net ≠ 0 ∧
          |(mkRow bd oi rows off d).reconciliation_order_side_net -
            (mkRow bd oi rows off d).reconciliation_payout_side_net| >
              1 / 100)))
    ∧ (mkRow bdTolEq emptyInfo [rowCharge100] 0 0).reconciliation_difference
        = 1 / 100
    ∧ (mkRow bdTolEq emptyInfo [rowCharge100] 0 0).reconciliation_mismatch
        = false
    ∧ (mkRow bdTolGt emptyInfo [rowCharge100] 0 0).reconciliation_difference
        = 11 / 1000
    ∧ (mkRow bdTolGt emptyInfo [rowCharge100] 0 0).reconciliation_mismatch
        = true
    ∧ (mkRow bdFifty emptyInfo [] 0 0).reconciliation_order_side_net = 50
    ∧ (mkRow bdFifty emptyInfo [] 0 0).reconciliation_payout_side_net = 0
    ∧ (mkRow bdFifty emptyInfo [] 0 0).reconciliation_mismatch = false := by
  refine ⟨fun bd oi rows off d => ?_, ?_, ?_, ?_, ?_, ?_, ?_, ?_⟩
  · simp only [mkRow]
    exact mismatch_formula_iff _ _
  · simp [mkRow, sumAmounts, localDay, bdTolEq, rowCharge100, emptyInfo]
    norm_num
  · simp [mkRow, sumAmounts, localDay, bdTolEq, rowCharge100, emptyInfo]
    rw [abs_of_nonneg (by norm_num)]
    norm_num
  · simp [mkRow, sumAmounts, localDay, bdTolGt, rowCharge100, emptyInfo]
    norm_num
  · simp [mkRow, sumAmounts, localDay, bdTolGt, rowCharge100, emptyInfo]
    rw [abs_of_nonneg (by norm_num)]; norm_num
  · simp [mkRow, sumAmounts, localDay, bdFifty, emptyInfo]
  · simp [mkRow, sumAmounts, localDay, bdFifty, emptyInfo]
  · simp [mkRow, sumAmounts, localDay, bdFifty, emptyInfo]

/-- C2: the claim says the order-side receipts figure is net (card sales minus
card refund magnitudes), so an order with one successful card sale of 100 and
one successful card refund of 45 should show order-side receipts of 55. The
code stores the refund accumulator negated (line 686, `-= amount`) and then
subtracts it again (line 931), so the pipeline reports 145 = 100 + 45, not
55 = 100 − 45, contradicting the code's own comments that the figure is net
of refunds. -/
theorem C2_order_side_net_code_bug :
    (generateRecon (parseOrders [oC2] mC2 0) [] 0).map
        Row.reconciliation_order_side_net = [145]
    ∧ (generateRecon (parseOrders [oC2] mC2 0) [] 0).map
        Row.payments_shopify_refunds = [-45]
    ∧ (145 : ℚ) ≠ 100 - 45 := by
  refine ⟨?_, ?_, by norm_num⟩ <;>
  · simp [generateRecon, parseOrders, stepOrder, stepTxn, stepTxn.recordAt,
      firstPass, categorize, oC2, saleTxn100, refundTxn45, mC2, bump_apply,
      payoutTypeOfKind, mappingKey, initState, sortedDedup, insertSorted,
      mkRow, sumAmounts, kindLower]
    try norm_num

/-- C3 counterexample: the claim counts the manually-entered-card gateway
(`manual`) as card-like, with a successful sale adding its amount to the
card-like payments accumulator. In `parse_orders` the date-selection step
skips every `manual` transaction (lines 672-674), so a successful manual sale
of 100 adds nothing anywhere: the parse state is unchanged and the card-like
accumulator stays 0 ≠ 100 at every candidate date. -/
theorem C3_counterexample :
    parseOrders [manualSaleOrder 100] mDummy 0 = parseOrders [] mDummy 0
    ∧ (parseOrders [manualSaleOrder 100] mDummy 0).by_date 0
        "shopify_payments" = 0
    ∧ (0 : ℚ) ≠ 100 := by
  exact ⟨rfl, rfl, by norm_num⟩

/-- C3 amended: on the platform-native card gateway (`shopify_payments`), for
an order with a payout-date mapping entry, an authorization or a sale adds the
transaction amount to the card-like payments accumulator and a capture adds
nothing, so an order with an authorization of X and a capture of X increases
the accumulator by exactly X, not 2X; transactions on the `manual` gateway,
however, are skipped entirely by the payout-centric parser (the processing of
such an order is the identity on the parse state). -/
theorem C3_card_like_amended :
    (∀ (X : ℚ) (d0 : Int),
      (parseOrders [spAuthOrder X] (mA d0) 0).by_date d0 "shopify_payments"
        = X)
    ∧ (∀ (X : ℚ) (d0 : Int),
      (parseOrders [spSaleOrder X] (mA d0) 0).by_date d0 "shopify_payments"
        = X)
    ∧ (∀ (X : ℚ) (d0 : Int),
      (parseOrders [authCaptureOrder X] (mA d0) 0).by_date d0
        "shopify_payments" = X)
    ∧ (∀ (X : ℚ) (s : ParseState),
      stepOrder mDummy 0 s (manualSaleOrder X) = s) := by
  refine ⟨fun X d0 => ?_, fun X d0 => ?_, fun X d0 => ?_, fun X s => rfl⟩ <;>
  · simp [parseOrders, stepOrder, stepTxn, stepTxn.recordAt, firstPass,
      categorize, spAuthOrder, spSaleOrder, authCaptureOrder, bump_apply,
      payoutTypeOfKind, mappingKey, mA, initState, kindLower]

/-- C9 counterexample: the claim asserts that the instant
2025-01-01T23:50:00 UTC bucketed in US/Eastern yields calendar date
2024-12-31. Converting to US/Eastern (UTC−5 in January) gives 18:50 on the
same day, so the code buckets the cash sale to 2025-01-01, leaving the
2024-12-31 bucket empty. -/
theorem C9_counterexample :
    (parseOrders [cashOrderAt (civilMinutes 2025 1 1 23 50) 10] mDummy
        (-300)).by_date (daysFromCivil 2024 12 31) "cash" = 0
    ∧ (parseOrders [cashOrderAt (civilMinutes 2025 1 1 23 50) 10] mDummy
        (-300)).by_date (daysFromCivil 2025 1 1) "cash" = 10
    ∧ daysFromCivil 2025 1 1 ≠ daysFromCivil 2024 12 31 := by
  refine ⟨?_, ?_, by decide⟩ <;>
  · simp [parseOrders, stepOrder, stepTxn, stepTxn.recordAt, firstPass,
      categorize, cashOrderAt, bump_apply, payoutTypeOfKind, mappingKey,
      mDummy, initState, kindLower, localDay, civilMinutes, daysFromCivil]

/-- C9 amended: temporal alignment applies the target-timezone offset to the
UTC-anchored instant before truncating to a calendar day (the stored instant
is never mutated — the fold is pure), so a cash sale processed at instant τ
lands in bucket `localDay τ off` for every τ and offset; concretely,
2025-01-01T23:50:00 UTC in US/Eastern buckets to 2025-01-01, and an instant
that does cross the day boundary, 2025-01-01T03:50:00 UTC, buckets to
2024-12-31. -/
theorem C9_timezone_bucketing_amended :
    (∀ (τ off : Int) (X : ℚ),
      (parseOrders [cashOrderAt τ X] mDummy off).by_date (localDay τ off)
        "cash" = X)
    ∧ (parseOrders [cashOrderAt (civilMinutes 2025 1 1 23 50) 10] mDummy
        (-300)).by_date (daysFromCivil 2025 1 1) "cash" = 10
    ∧ (parseOrders [cashOrderAt (civilMinutes 2025 1 1 3 50) 10] mDummy
        (-300)).by_date (daysFromCivil 2024 12 31) "cash" = 10 := by
  refine ⟨fun τ off X => ?_, ?_, ?_⟩ <;>
  · simp [parseOrders, stepOrder, stepTxn, stepTxn.recordAt, firstPass,
      categorize, cashOrderAt, bump_apply, payoutTypeOfKind, mappingKey,
      mDummy, initState, kindLower, localDay, civilMinutes, daysFromCivil]

/-- A bump at a different inner key leaves the value unchanged. -/
theorem bump_ne_key (f : Int → String → ℚ) (d0 : Int) (k0 : String) (v : ℚ)
    (d : Int) (k : String) (hne : k ≠ k0) : bump f d0 k0 v d k = f d k := by
  simp [bump, hne]

/-- A bump at a different date leaves the value unchanged. -/
theorem bump_ne_date (f : Int → String → ℚ) (d0 : Int) (k0 : String) (v : ℚ)
    (d : Int) (k : String) (hne : d ≠ d0) : bump f d0 k0 v d k = f d k := by
  simp [bump, hne]

/-- When no cash-like sale and no mapped card transaction exists, the first
pass never finds a payout date. -/
theorem firstPass_pd_none (m : List (String × Int)) (off : Int)
    (oname : String) (ts : List Txn)
    (hcash : ∀ t ∈ ts, t.status = "SUCCESS" →
      ¬((t.gateway = "cash" ∨ t.gateway = "gift_card" ∨
          t.gateway = "shop_cash") ∧ t.kind = "SALE"))
    (hmap : m.lookup (mappingKey oname "charge") = none) :
    ∀ cc cash, (firstPass m off oname ts cc cash none).2.2 = none := by
  induction ts with
  | nil => intro cc cash; rfl
  | cons t ts ih =>
    intro cc cash
    have hcash' : ∀ x ∈ ts, x.status = "SUCCESS" →
        ¬((x.gateway = "cash" ∨ x.gateway = "gift_card" ∨
            x.gateway = "shop_cash") ∧ x.kind = "SALE") :=
      fun x hx => hcash x (List.mem_cons_of_mem _ hx)
    have ht := hcash t (List.mem_cons_self _ _)
    show (firstPass m off oname (t :: ts) cc cash none).2.2 = none
    rw [firstPass]
    by_cases hs : t.status ≠ "SUCCESS"
    · rw [if_pos hs]; exact ih hcash' cc cash
    · rw [if_neg hs]
      by_cases hsp : t.gateway = "shopify_payments" ∧
          (t.kind = "AUTHORIZATION" ∨ t.kind = "SALE")
      · rw [if_pos hsp]
        have hcharge : payoutTypeOfKind t.kind = "charge" := by
          rcases hsp.2 with h | h <;> simp [payoutTypeOfKind, h]
        by_cases hm : m ≠ []
        · rw [if_pos hm, hcharge, hmap]; exact ih hcash' true cash
        · rw [if_neg hm]; exact ih hcash' true cash
      · rw [if_neg hsp]
        have hnc := ht (not_not.mp hs)
        rw [if_neg hnc]
        exact ih hcash' cc cash

/-- C8 counterexample: the claim requires the exclusion of an unmapped
card-paying order to be counted and visible in the output. Order #9 pays by
card, the (nonempty) mapping has no entry for it, and processing it leaves
the parse state literally identical to not processing it at all: the
exclusion happens but leaves no trace — no count, nothing visible. -/
theorem C8_counterexample :
    parseOrders [oC8] mC8 0 = parseOrders [] mC8 0
    ∧ parseOrders [] mC8 0 = initState := ⟨rfl, rfl⟩

/-- C8 amended: an order with no successful cash-like sale transaction and no
payout-mapping entry for its name is excluded from the payout-aligned
aggregates, but silently: processing it is the identity on the parse state
(in particular no skip count exists anywhere in the output). -/
theorem C8_silent_exclusion_amended (m : List (String × Int)) (off : Int)
    (s : ParseState) (o : Order)
    (hcash : ∀ t ∈ o.transactions, t.status = "SUCCESS" →
      ¬((t.gateway = "cash" ∨ t.gateway = "gift_card" ∨
          t.gateway = "shop_cash") ∧ t.kind = "SALE"))
    (hmap : m.lookup (mappingKey o.name "charge") = none) :
    stepOrder m off s o = s := by
  have hpd := firstPass_pd_none m off o.name o.transactions hcash hmap
    false false
  simp [stepOrder, hpd]

theorem C8_silent_exclusion_amended_witness :
    (∀ t ∈ oC8.transactions, t.status = "SUCCESS" →
      ¬((t.gateway = "cash" ∨ t.gateway = "gift_card" ∨
          t.gateway = "shop_cash") ∧ t.kind = "SALE"))
    ∧ mC8.lookup (mappingKey oC8.name "charge") = none
    ∧ stepOrder mC8 0 initState oC8 = initState :=
  ⟨by decide, by decide,
    C8_silent_exclusion_amended mC8 0 initState oC8 (by decide) (by decide)⟩

/-- The categorisation writes only its fixed gateway bucket keys, never a
protected key. -/
theorem categorize_preserves (f : Int → String → ℚ) (final : Int) (t : Txn)
    (d : Int) (k : String) (hp : k ∈ ProtectedKeys) :
    categorize f final t d k = f d k := by
  unfold categorize
  split_ifs <;>
    first
      | rfl
      | exact bump_ne_key _ _ _ _ _ _ (fun hkK => absurd (hkK ▸ hp) (by decide))

/-- Recording a transaction on one of the four recognised gateways never
writes a protected key. -/
theorem recordAt_by_date_preserved (final : Int) (s : ParseState) (t : Txn)
    (d : Int) (k : String)
    (hg : t.gateway = "shopify_payments" ∨ t.gateway = "cash" ∨
      t.gateway = "gift_card" ∨ t.gateway = "shop_cash")
    (hk : t.kind ∈ StdKinds) (hp : k ∈ ProtectedKeys) :
    (stepTxn.recordAt final s t).by_date d k = s.by_date d k := by
  show categorize
      (bump s.by_date final (t.gateway ++ "_" ++ kindLower t.kind) t.amount)
      final t d k = s.by_date d k
  rw [categorize_preserves _ _ _ d k hp]
  have hk5 : t.kind = "AUTHORIZATION" ∨ t.kind = "SALE" ∨
      t.kind = "CAPTURE" ∨ t.kind = "REFUND" ∨ t.kind = "CHANGE" := by
    simpa [StdKinds] using hk
  rcases hg with hg | hg | hg | hg <;> rcases hk5 with h | h | h | h | h <;>
    rw [hg, h] <;>
    exact bump_ne_key _ _ _ _ _ _ (fun hkK => absurd (hkK ▸ hp) (by decide))

/-- The transaction pass never writes a protected key. -/
theorem stepTxn_by_date_preserved (off : Int) (pdate : Option Int)
    (s : ParseState) (t : Txn) (d : Int) (k : String)
    (hk : t.kind ∈ StdKinds) (hp : k ∈ ProtectedKeys) :
    (stepTxn off pdate s t).by_date d k = s.by_date d k := by
  unfold stepTxn
  split_ifs with h1 h2 h3
  · rfl
  · exact recordAt_by_date_preserved _ _ _ _ _ (Or.inl h2.1) hk hp
  · exact recordAt_by_date_preserved _ _ _ _ _ (Or.inr h3) hk hp
  · rfl

theorem foldTxns_by_date_preserved (off : Int) (pdate : Option Int)
    (ts : List Txn) (s : ParseState) (d : Int) (k : String)
    (hk : ∀ t ∈ ts, t.kind ∈ StdKinds) (hp : k ∈ ProtectedKeys) :
    ((ts.foldl (stepTxn off pdate) s).by_date d k) = s.by_date d k := by
  induction ts generalizing s with
  | nil => rfl
  | cons t ts ih =>
    rw [List.foldl_cons,
      ih (stepTxn off pdate s t) (fun x hx => hk x (List.mem_cons_of_mem _ hx)),
      stepTxn_by_date_preserved off pdate s t d k
        (hk t (List.mem_cons_self _ _)) hp]

/-- Processing an order never writes the `other_payments` / `other_refunds`
keys. -/
theorem stepOrder_other_preserved (m : List (String × Int)) (off : Int)
    (s : ParseState) (o : Order)
    (hk : ∀ t ∈ o.transactions, t.kind ∈ StdKinds) (k : String)
    (hko : k = "other_payments" ∨ k = "other_refunds") (d : Int) :
    (stepOrder m off s o).by_date d k = s.by_date d k := by
  have hp : k ∈ ProtectedKeys := by
    rcases hko with h | h <;> rw [h] <;> decide
  simp only [stepOrder]
  split_ifs with h1 h2
  · rfl
  · exact foldTxns_by_date_preserved off _ o.transactions s d k hk hp
  · rw [foldTxns_by_date_preserved off _ o.transactions _ d k hk hp]
    rcases hko with h | h <;> subst h <;> simp [bump]

/-- Folding any well-kinded order list never writes the `other` buckets. -/
theorem parse_other_zero (orders : List Order) (m : List (String × Int))
    (off : Int) (hwf : wellFormedKinds orders) (k : String)
    (hko : k = "other_payments" ∨ k = "other_refunds") (d : Int) :
    (parseOrders orders m off).by_date d k = 0 := by
  suffices h : ∀ s : ParseState, (∀ d' : Int, s.by_date d' k = 0) →
      ∀ d' : Int, (orders.foldl (stepOrder m off) s).by_date d' k = 0 by
    exact h initState (fun _ => rfl) d
  induction orders with
  | nil => intro s hs d'; exact hs d'
  | cons o os ih =>
    intro s hs d'
    have hwf' : wellFormedKinds os :=
      fun x hx => hwf x (List.mem_cons_of_mem _ hx)
    have hko' := hwf o (List.mem_cons_self _ _)
    rw [List.foldl_cons]
    exact ih hwf'
      (stepOrder m off s o)
      (fun d'' => by
        rw [stepOrder_other_preserved m off s o hko' k hko d'']
        exact hs d'') d'

/-- C7 counterexample: the claim routes a successful transaction on an
unrecognised gateway to the `other` payments bucket. Order #P has a mapped
card sale of 100 and a successful sale of 10 on gateway `paypal`; the parser
drops the paypal transaction entirely (lines 672-674), so the `other` bucket
holds 0, not 10, at the order's payout date and at the transaction's own
processed date alike. -/
theorem C7_counterexample :
    (parseOrders [oC7] mC7 0).by_date 5 "other_payments" = 0
    ∧ (parseOrders [oC7] mC7 0).by_date 0 "other_payments" = 0
    ∧ (0 : ℚ) ≠ 10 := by
  refine ⟨?_, ?_, by norm_num⟩ <;>
  · simp [parseOrders, stepOrder, stepTxn, stepTxn.recordAt, firstPass,
      categorize, oC7, bump_apply, payoutTypeOfKind, mappingKey, mC7,
      initState, kindLower]

/-- C7 amended: in `parse_orders` of the payout-centric script, a successful
transaction whose gateway is outside the recognised set is dropped — the
`other_payments` and `other_refunds` accumulators are never written and stay
zero for every well-kinded input; the routing of unknown gateways to the
`other` buckets exists only in the legacy per-date script
(`parse_orders_for_date`), whose categorisation adds a sale (or
authorization) of X on an unknown gateway to `other_payments` and a refund of
X to `other_refunds`. -/
theorem C7_other_bucket_amended :
    (∀ (orders : List Order) (m : List (String × Int)) (off : Int),
      wellFormedKinds orders → ∀ d : Int,
        (parseOrders orders m off).by_date d "other_payments" = 0 ∧
        (parseOrders orders m off).by_date d "other_refunds" = 0)
    ∧ (∀ X : ℚ, oldPaymentTotals [paypalTxn "SALE" X] "other_payments" = X)
    ∧ (∀ X : ℚ,
        oldPaymentTotals [paypalTxn "AUTHORIZATION" X] "other_payments" = X)
    ∧ (∀ X : ℚ, oldPaymentTotals [paypalTxn "REFUND" X] "other_refunds" = X)
    := by
  refine ⟨fun orders m off hwf d =>
    ⟨parse_other_zero orders m off hwf _ (Or.inl rfl) d,
     parse_other_zero orders m off hwf _ (Or.inr rfl) d⟩, ?_, ?_, ?_⟩ <;>
  · intro X
    simp [oldPaymentTotals, oldStepTxn, addKey, paypalTxn]

theorem C7_other_bucket_amended_witness :
    wellFormedKinds [oC7]
    ∧ (parseOrders [oC7] mC7 0).by_date 5 "other_payments" = 0
    ∧ (parseOrders [oC7] mC7 0).by_date 5 "other_refunds" = 0 :=
  ⟨by unfold wellFormedKinds; decide,
    (C7_other_bucket_amended.1 [oC7] mC7 0 (by unfold wellFormedKinds; decide)
      5).1,
    (C7_other_bucket_amended.1 [oC7] mC7 0 (by unfold wellFormedKinds; decide)
      5).2⟩

/-- Composing two filters is filtering by the conjunction. -/
theorem filter_pair {α : Type} (a b : α → Bool) (l : List α) :
    (l.filter a).filter b = l.filter (fun x => a x && b x) := by
  induction l with
  | nil => rfl
  | cons x xs ih =>
    cases hax : a x <;> cases hbx : b x <;>
      simp [List.filter_cons, hax, hbx, ih]

/-- Composing three filters is filtering by the conjunction. -/
theorem filter_triple {α : Type} (a b c : α → Bool) (l : List α) :
    ((l.filter a).filter b).filter c =
      l.filter (fun x => a x && (b x && c x)) := by
  rw [filter_pair, filter_pair]

/-- Appending one row to the ledger adds its amount to a per-type bucket sum
exactly when it is a paid row of that type on that date. -/
theorem sumByType_append_single (rows : List PayoutRow) (off d : Int)
    (ty : String) (r : PayoutRow) :
    sumByType (rows ++ [r]) off d ty =
      sumByType rows off d ty +
        (if (localDay r.payoutAt off == d) &&
            ((r.status == "paid") && (r.ptype == ty)) then r.amount
          else 0) := by
  simp only [sumByType, List.filter_append]
  cases h : (localDay r.payoutAt off == d) &&
      ((r.status == "paid") && (r.ptype == ty)) <;>
    simp [List.filter_cons, h]

/-- The per-type payout buckets of a record, expressed through `sumByType`:
the refund bucket is reported in absolute value, the adjustment, chargeback
and chargeback-won buckets keep the ledger-native signed sum. -/
theorem mkRow_bucket_sums (bd : Int → String → ℚ) (oi : Int → List String)
    (rows : List PayoutRow) (off d : Int) :
    (mkRow bd oi rows off d).shopify_payout_refunds =
        |sumByType rows off d "refund"|
    ∧ (mkRow bd oi rows off d).payout_type_adjustment =
        sumByType rows off d "adjustment"
    ∧ (mkRow bd oi rows off d).payout_type_chargeback =
        sumByType rows off d "chargeback"
    ∧ (mkRow bd oi rows off d).payout_type_chargeback_won =
        sumByType rows off d "chargeback won" := by
  refine ⟨?_, ?_, ?_, ?_⟩ <;>
  · simp only [mkRow, sumByType, sumAmounts]
    rw [filter_triple]

/-- C4: a paid refund-type ledger row with Amount −45 on date d contributes
+45 to the refund-magnitude term (given the ledger-native convention that the
refund bucket sums nonpositive, the absolute value is applied exactly once),
while the adjustment, chargeback and chargeback-won buckets are reported as
plain signed sums with no absolute value. -/
theorem C4_refund_abs_scope (bd : Int → String → ℚ)
    (oi : Int → List String) (rows : List PayoutRow) (off d : Int)
    (r : PayoutRow) (h1 : r.status = "paid")
    (h2 : localDay r.payoutAt off = d) (h3 : r.ptype = "refund")
    (h4 : r.amount = -45) (h5 : sumByType rows off d "refund" ≤ 0) :
    (mkRow bd oi (rows ++ [r]) off d).shopify_payout_refunds =
        (mkRow bd oi rows off d).shopify_payout_refunds + 45
    ∧ (∀ rows' : List PayoutRow,
        (mkRow bd oi rows' off d).payout_type_adjustment =
            sumByType rows' off d "adjustment"
        ∧ (mkRow bd oi rows' off d).payout_type_chargeback =
            sumByType rows' off d "chargeback"
        ∧ (mkRow bd oi rows' off d).payout_type_chargeback_won =
            sumByType rows' off d "chargeback won")
    ∧ (∀ rows' : List PayoutRow,
        (mkRow bd oi rows' off d).shopify_payout_refunds =
          |sumByType rows' off d "refund"|) := by
  refine ⟨?_, fun rows' => ⟨(mkRow_bucket_sums bd oi rows' off d).2.1,
      (mkRow_bucket_sums bd oi rows' off d).2.2.1,
      (mkRow_bucket_sums bd oi rows' off d).2.2.2⟩,
    fun rows' => (mkRow_bucket_sums bd oi rows' off d).1⟩
  rw [(mkRow_bucket_sums bd oi (rows ++ [r]) off d).1,
    (mkRow_bucket_sums bd oi rows off d).1, sumByType_append_single]
  rw [if_pos (by simp [h1, h2, h3]), h4]
  have h45 : sumByType rows off d "refund" + (-45) ≤ 0 := by linarith
  rw [abs_of_nonpos h45, abs_of_nonpos h5]
  ring

theorem C4_refund_abs_scope_witness :
    (rowRefundNeg45.status = "paid" ∧ localDay rowRefundNeg45.payoutAt 0 = 0
      ∧ rowRefundNeg45.ptype = "refund" ∧ rowRefundNeg45.amount = -45
      ∧ sumByType [] 0 0 "refund" ≤ 0)
    ∧ (mkRow zeroBD emptyInfo ([] ++ [rowRefundNeg45]) 0 0).shopify_payout_refunds
        = (mkRow zeroBD emptyInfo [] 0 0).shopify_payout_refunds + 45 :=
  ⟨⟨rfl, by decide, rfl, rfl, by norm_num [sumByType]⟩,
    (C4_refund_abs_scope zeroBD emptyInfo [] 0 0 rowRefundNeg45 rfl
      (by decide) rfl rfl (by norm_num [sumByType])).1⟩

/-- Filtering by paid status first does not change the per-date paid rows. -/
theorem paid_filter_stable (rows : List PayoutRow) (off d : Int) :
    (((rows.filter (fun x => x.status == "paid")).filter
        (fun r => localDay r.payoutAt off == d)).filter
        (fun r => r.status == "paid")) =
      ((rows.filter (fun r => localDay r.payoutAt off == d)).filter
        (fun r => r.status == "paid")) := by
  rw [filter_triple, filter_pair]
  have hpq : (fun (x : PayoutRow) => (x.status == "paid") &&
      ((localDay x.payoutAt off == d) && (x.status == "paid"))) =
      (fun (x : PayoutRow) => (localDay x.payoutAt off == d) &&
        (x.status == "paid")) := by
    funext x
    cases hx : x.status == "paid" <;>
      cases hd : localDay x.payoutAt off == d <;> simp [hx, hd]
  rw [hpq]

/-- C5: every settled payout accumulator of a record depends only on the rows
whose settlement status is `paid` (filtering the ledger to its paid rows
changes none of them), and the pending pair is exactly the sum and count of
the non-paid rows of that date, kept separate from every settled total. -/
theorem C5_paid_pending_partition (bd : Int → String → ℚ)
    (oi : Int → List String) (rows : List PayoutRow) (off d : Int) :
    ((mkRow bd oi rows off d).shopify_payments_amount =
        (mkRow bd oi (rows.filter (fun x => x.status == "paid")) off
          d).shopify_payments_amount
      ∧ (mkRow bd oi rows off d).shopify_payout_refunds =
        (mkRow bd oi (rows.filter (fun x => x.status == "paid")) off
          d).shopify_payout_refunds
      ∧ (mkRow bd oi rows off d).shopify_gross_charges =
        (mkRow bd oi (rows.filter (fun x => x.status == "paid")) off
          d).shopify_gross_charges
      ∧ (mkRow bd oi rows off d).shopify_fees =
        (mkRow bd oi (rows.filter (fun x => x.status == "paid")) off
          d).shopify_fees
      ∧ (mkRow bd oi rows off d).shopify_net_deposit =
        (mkRow bd oi (rows.filter (fun x => x.status == "paid")) off
          d).shopify_net_deposit
      ∧ (mkRow bd oi rows off d).payout_count =
        (mkRow bd oi (rows.filter (fun x => x.status == "paid")) off
          d).payout_count
      ∧ (mkRow bd oi rows off d).payout_type_adjustment =
        (mkRow bd oi (rows.filter (fun x => x.status == "paid")) off
          d).payout_type_adjustment
      ∧ (mkRow bd oi rows off d).payout_type_chargeback =
        (mkRow bd oi (rows.filter (fun x => x.status == "paid")) off
          d).payout_type_chargeback
      ∧ (mkRow bd oi rows off d).payout_type_chargeback_won =
        (mkRow bd oi (rows.filter (fun x => x.status == "paid")) off
          d).payout_type_chargeback_won
      ∧ (mkRow bd oi rows off d).payout_type_shop_cash_credit =
        (mkRow bd oi (rows.filter (fun x => x.status == "paid")) off
          d).payout_type_shop_cash_credit
      ∧ (mkRow bd oi rows off d).payout_type_other =
        (mkRow bd oi (rows.filter (fun x => x.status == "paid")) off
          d).payout_type_other)
    ∧ (mkRow bd oi rows off d).pending_payout_amount =
        ((rows.filter (fun x => (localDay x.payoutAt off == d) &&
            !(x.status == "paid"))).map PayoutRow.amount).sum
    ∧ (mkRow bd oi rows off d).pending_payout_count =
        (rows.filter (fun x => (localDay x.payoutAt off == d) &&
            !(x.status == "paid"))).length := by
  refine ⟨⟨?_, ?_, ?_, ?_, ?_, ?_, ?_, ?_, ?_, ?_, ?_⟩, ?_, ?_⟩
  case _ => simp only [mkRow, sumAmounts]; rw [paid_filter_stable]
  case _ => simp only [mkRow, sumAmounts]; rw [paid_filter_stable]
  case _ => simp only [mkRow, sumAmounts]; rw [paid_filter_stable]
  case _ => simp only [mkRow, sumAmounts]; rw [paid_filter_stable]
  case _ => simp only [mkRow, sumAmounts]; rw [paid_filter_stable]
  case _ => simp only [mkRow, sumAmounts]; rw [paid_filter_stable]
  case _ => simp only [mkRow, sumAmounts]; rw [paid_filter_stable]
  case _ => simp only [mkRow, sumAmounts]; rw [paid_filter_stable]
  case _ => simp only [mkRow, sumAmounts]; rw [paid_filter_stable]
  case _ => simp only [mkRow, sumAmounts]; rw [paid_filter_stable]
  case _ => simp only [mkRow, sumAmounts]; rw [paid_filter_stable]
  case _ => simp only [mkRow, sumAmounts]; rw [filter_pair]
  case _ => simp only [mkRow, sumAmounts]; rw [filter_pair]

/-- A categorisation at another date leaves the accumulator row unchanged. -/
theorem categorize_ne_date (f : Int → String → ℚ) (final : Int) (t : Txn)
    (d : Int) (k : String) (hne : d ≠ final) :
    categorize f final t d k = f d k := by
  unfold categorize
  split_ifs <;> first | rfl | exact bump_ne_date _ _ _ _ _ _ hne

theorem untouched_recordAt (final : Int) (s : ParseState) (t : Txn)
    (h : UntouchedZero s) : UntouchedZero (stepTxn.recordAt final s t) := by
  intro d hd
  have hd' : d ∉ s.dates ∧ d ≠ final := by
    constructor <;> intro hc <;>
      exact hd (by simp [stepTxn.recordAt, List.mem_append, hc])
  obtain ⟨h1, h2⟩ := h d hd'.1
  refine ⟨fun k => ?_, h2⟩
  show categorize (bump s.by_date final _ _) final t d k = 0
  rw [categorize_ne_date _ _ _ _ _ hd'.2, bump_ne_date _ _ _ _ _ _ hd'.2]
  exact h1 k

theorem untouched_stepTxn (off : Int) (pdate : Option Int) (t : Txn)
    (s : ParseState) (h : UntouchedZero s) :
    UntouchedZero (stepTxn off pdate s t) := by
  unfold stepTxn
  split_ifs with h1 h2 h3
  · exact h
  · exact untouched_recordAt _ _ _ h
  · exact untouched_recordAt _ _ _ h
  · exact h

theorem untouched_foldTxns (off : Int) (pdate : Option Int) (ts : List Txn) :
    ∀ s : ParseState, UntouchedZero s →
      UntouchedZero (ts.foldl (stepTxn off pdate) s) := by
  induction ts with
  | nil => exact fun s h => h
  | cons t ts ih =>
    intro s h
    rw [List.foldl_cons]
    exact ih _ (untouched_stepTxn off pdate t s h)

theorem untouched_stepOrder (m : List (String × Int)) (off : Int)
    (s : ParseState) (o : Order) (h : UntouchedZero s) :
    UntouchedZero (stepOrder m off s o) := by
  simp only [stepOrder]
  split_ifs with h1 h2
  · exact h
  · exact untouched_foldTxns _ _ _ _ h
  · apply untouched_foldTxns
    intro d hd
    have hd' : d ∉ s.dates ∧
        d ≠ (firstPass m off o.name o.transactions false false none).2.2.getD
          0 := by
      constructor <;> intro hc <;>
        exact hd (by simp [List.mem_append, hc])
    obtain ⟨hz, hi⟩ := h d hd'.1
    constructor
    · intro k
      simp [bump, hd'.2, hz]
    · show pushAt s.orderInfo _ o.name d = []
      simp [pushAt, hd'.2]
      exact hi

theorem untouched_parse (orders : List Order) (m : List (String × Int))
    (off : Int) : UntouchedZero (parseOrders orders m off) := by
  suffices h : ∀ s : ParseState, UntouchedZero s →
      UntouchedZero (orders.foldl (stepOrder m off) s) from
    h initState (fun d hd => ⟨fun k => rfl, rfl⟩)
  induction orders with
  | nil => exact fun s h => h
  | cons o os ih =>
    intro s h
    rw [List.foldl_cons]
    exact ih _ (untouched_stepOrder m off s o h)

theorem mem_insertSorted (x a : Int) (l : List Int) :
    a ∈ insertSorted x l ↔ a = x ∨ a ∈ l := by
  induction l with
  | nil => simp [insertSorted]
  | cons y ys ih =>
    unfold insertSorted
    split_ifs with h1 h2
    · simp [List.mem_cons]
    · subst h2
      simp [List.mem_cons]
      try tauto
    · simp only [List.mem_cons, ih]
      tauto

theorem pairwise_insertSorted (x : Int) (l : List Int)
    (h : l.Pairwise (· < ·)) : (insertSorted x l).Pairwise (· < ·) := by
  induction l with
  | nil => simp [insertSorted]
  | cons y ys ih =>
    rw [List.pairwise_cons] at h
    obtain ⟨hy, hys⟩ := h
    unfold insertSorted
    split_ifs with h1 h2
    · refine List.Pairwise.cons ?_ (List.Pairwise.cons hy hys)
      intro b hb
      rcases List.mem_cons.mp hb with rfl | hb
      · exact h1
      · exact lt_trans h1 (hy b hb)
    · exact List.Pairwise.cons hy hys
    · have hyx : y < x := by omega
      refine List.Pairwise.cons ?_ (ih hys)
      intro b hb
      rcases (mem_insertSorted x b ys).mp hb with rfl | hb
      · exact hyx
      · exact hy b hb

theorem mem_sortedDedup (l : List Int) (a : Int) :
    a ∈ sortedDedup l ↔ a ∈ l := by
  induction l with
  | nil => simp [sortedDedup]
  | cons x xs ih =>
    show a ∈ insertSorted x (sortedDedup xs) ↔ _
    rw [mem_insertSorted, ih, List.mem_cons]

theorem pairwise_sortedDedup (l : List Int) :
    (sortedDedup l).Pairwise (· < ·) := by
  induction l with
  | nil => exact List.Pairwise.nil
  | cons x xs ih => exact pairwise_insertSorted x _ ih

/-- A date with an all-zero accumulator row and no order info yields a record
whose order-side fields are all zero. -/
theorem mkRow_orderSideZero (bd : Int → String → ℚ) (oi : Int → List String)
    (rows : List PayoutRow) (off d : Int)
    (hbd : ∀ k, bd d k = 0) (hoi : oi d = []) :
    OrderSideZero (mkRow bd oi rows off d) := by
  simp [OrderSideZero, mkRow, hbd, hoi]

/-- A date with no payout-ledger row yields a record whose payout-side fields
are all zero. -/
theorem mkRow_payoutSideZero (bd : Int → String → ℚ)
    (oi : Int → List String) (rows : List PayoutRow) (off d : Int)
    (h : ∀ p ∈ rows, localDay p.payoutAt off ≠ d) :
    PayoutSideZero (mkRow bd oi rows off d) := by
  have hnil : rows.filter (fun r => localDay r.payoutAt off == d) = [] := by
    rw [List.filter_eq_nil_iff]
    intro a ha
    simpa using h a ha
  simp [PayoutSideZero, mkRow, hnil, sumAmounts]

/-- C6: the reconciler emits exactly one record per calendar date in the
union of the order-side date set and the payout-ledger date set — the emitted
date sequence is strictly increasing (hence sorted and duplicate-free) and
ranges exactly over the union — and a date present on only one side gets a
record whose missing side's numeric fields are all zero. -/
theorem C6_union_sorted_records (orders : List Order)
    (m : List (String × Int)) (off : Int) (rows : List PayoutRow) :
    ((generateRecon (parseOrders orders m off) rows off).map
        Row.date).Pairwise (· < ·)
    ∧ (∀ d : Int,
        d ∈ (generateRecon (parseOrders orders m off) rows off).map Row.date
          ↔ (d ∈ (parseOrders orders m off).dates ∨
              d ∈ rows.map (fun r => localDay r.payoutAt off)))
    ∧ (∀ r ∈ generateRecon (parseOrders orders m off) rows off,
        r.date ∉ (parseOrders orders m off).dates → OrderSideZero r)
    ∧ (∀ r ∈ generateRecon (parseOrders orders m off) rows off,
        (∀ p ∈ rows, localDay p.payoutAt off ≠ r.date) →
          PayoutSideZero r) := by
  have hmap : (generateRecon (parseOrders orders m off) rows off).map Row.date
      = sortedDedup ((parseOrders orders m off).dates ++
          rows.map (fun r => localDay r.payoutAt off)) := by
    unfold generateRecon
    rw [List.map_map]
    have hid : (Row.date ∘ mkRow (parseOrders orders m off).by_date
        (parseOrders orders m off).orderInfo rows off) = id :=
      funext fun d => rfl
    rw [hid, List.map_id]
  refine ⟨?_, ?_, ?_, ?_⟩
  · rw [hmap]
    exact pairwise_sortedDedup _
  · intro d
    rw [hmap, mem_sortedDedup]
    exact List.mem_append
  · intro r hr hd
    obtain ⟨d, hdmem, rfl⟩ := List.mem_map.mp hr
    exact mkRow_orderSideZero _ _ _ _ _
      (fun k => ((untouched_parse orders m off) d hd).1 k)
      ((untouched_parse orders m off) d hd).2
  · intro r hr hp
    obtain ⟨d, hdmem, rfl⟩ := List.mem_map.mp hr
    exact mkRow_payoutSideZero _ _ _ _ _ hp

theorem C6_union_sorted_records_witness :
    OrderSideZero (mkRow (parseOrders [] [] 0).by_date
      (parseOrders [] [] 0).orderInfo [rowCharge100] 0 0) :=
  (C6_union_sorted_records [] [] 0 [rowCharge100]).2.2.1
    (mkRow (parseOrders [] [] 0).by_date
      (parseOrders [] [] 0).orderInfo [rowCharge100] 0 0)
    (List.mem_singleton.mpr rfl)
    (List.not_mem_nil 0)

theorem bump_congr (f g : Int → String → ℚ) (d0 : Int) (k0 : String) (v : ℚ)
    (d : Int) (k : String) (h : f d k = g d k) :
    bump f d0 k0 v d k = bump g d0 k0 v d k := by
  simp only [bump, h]

theorem categorize_congr (f g : Int → String → ℚ) (final : Int) (t : Txn)
    (d : Int) (k : String) (h : f d k = g d k) :
    categorize f final t d k = categorize g final t d k := by
  unfold categorize
  split_ifs <;> first | exact h | exact bump_congr _ _ _ _ _ _ _ h

theorem stepTxn_congr (off : Int) (pdate : Option Int) (t : Txn)
    (s s' : ParseState) (d : Int) (k : String)
    (h : s.by_date d k = s'.by_date d k) :
    (stepTxn off pdate s t).by_date d k =
      (stepTxn off pdate s' t).by_date d k := by
  unfold stepTxn
  split_ifs
  · exact h
  · exact categorize_congr _ _ _ _ _ _ (bump_congr _ _ _ _ _ _ _ h)
  · exact categorize_congr _ _ _ _ _ _ (bump_congr _ _ _ _ _ _ _ h)
  · exact h

theorem stepTxn_processed (off : Int) (pdate : Option Int) (s : ParseState)
    (t : Txn) : (stepTxn off pdate s t).processed = s.processed := by
  unfold stepTxn
  split_ifs <;> rfl

theorem foldTxns_congr (off : Int) (pdate : Option Int) (ts : List Txn)
    (d : Int) (k : String) :
    ∀ s s' : ParseState, s.by_date d k = s'.by_date d k →
      (ts.foldl (stepTxn off pdate) s).by_date d k =
        (ts.foldl (stepTxn off pdate) s').by_date d k := by
  induction ts with
  | nil => exact fun s s' h => h
  | cons t ts ih =>
    intro s s' h
    rw [List.foldl_cons, List.foldl_cons]
    exact ih _ _ (stepTxn_congr off pdate t s s' d k h)

theorem foldTxns_processed (off : Int) (pdate : Option Int) (ts : List Txn) :
    ∀ s : ParseState,
      (ts.foldl (stepTxn off pdate) s).processed = s.processed := by
  induction ts with
  | nil => exact fun s => rfl
  | cons t ts ih =>
    intro s
    rw [List.foldl_cons, ih, stepTxn_processed]

/-- Processing the same order preserves agreement on the order-level
accumulators. -/
theorem stepOrder_agree (m : List (String × Int)) (off : Int) (o : Order)
    (s t : ParseState) (h : OrderLevelAgree s t) :
    OrderLevelAgree (stepOrder m off s o) (stepOrder m off t o) := by
  obtain ⟨hp, hbd⟩ := h
  simp only [stepOrder]
  split_ifs with h1 h2 h3 h3
  · exact ⟨hp, hbd⟩
  · refine ⟨?_, fun d k hk => ?_⟩
    · rw [foldTxns_processed, foldTxns_processed]
      exact hp
    · exact foldTxns_congr off _ o.transactions d k s t (hbd d k hk)
  · exact absurd (hp ▸ h2) h3
  · exact absurd (hp.symm ▸ h3) h2
  · refine ⟨?_, fun d k hk => ?_⟩
    · rw [foldTxns_processed, foldTxns_processed]
      show o.name :: s.processed = o.name :: t.processed
      rw [hp]
    · refine foldTxns_congr off _ o.transactions d k _ _ ?_
      show (bump _ _ "order_count" 1) d k = (bump _ _ "order_count" 1) d k
      refine bump_congr _ _ _ _ _ _ _ ?_
      refine bump_congr _ _ _ _ _ _ _ ?_
      refine bump_congr _ _ _ _ _ _ _ ?_
      refine bump_congr _ _ _ _ _ _ _ ?_
      refine bump_congr _ _ _ _ _ _ _ ?_
      refine bump_congr _ _ _ _ _ _ _ ?_
      refine bump_congr _ _ _ _ _ _ _ ?_
      refine bump_congr _ _ _ _ _ _ _ ?_
      refine bump_congr _ _ _ _ _ _ _ ?_
      refine bump_congr _ _ _ _ _ _ _ ?_
      refine bump_congr _ _ _ _ _ _ _ ?_
      exact hbd d k hk

/-- Re-processing an already-processed order name leaves the deduplication
set and every order-level accumulator entry unchanged. -/
theorem stepOrder_agree_self (m : List (String × Int)) (off : Int)
    (s : ParseState) (o : Order) (hmem : o.name ∈ s.processed)
    (hk : ∀ t ∈ o.transactions, t.kind ∈ StdKinds) :
    OrderLevelAgree (stepOrder m off s o) s := by
  simp only [stepOrder]
  split_ifs with h1
  · exact ⟨rfl, fun d k hkey => rfl⟩
  · refine ⟨?_, fun d k hkey => ?_⟩
    · rw [foldTxns_processed]
    · exact foldTxns_by_date_preserved off _ o.transactions s d k hk
        (List.mem_append.mpr (Or.inl hkey))

theorem foldOrders_agree (m : List (String × Int)) (off : Int)
    (os : List Order) :
    ∀ s t : ParseState, OrderLevelAgree s t →
      OrderLevelAgree (os.foldl (stepOrder m off) s)
        (os.foldl (stepOrder m off) t) := by
  induction os with
  | nil => exact fun s t h => h
  | cons o os ih =>
    intro s t h
    rw [List.foldl_cons, List.foldl_cons]
    exact ih _ _ (stepOrder_agree m off o s t h)

/-- C10: order-level totals are allocated at most once per distinct order
name — a second order record whose name is already in the deduplication set
contributes nothing to any order-level accumulator entry: dropping it from
the input leaves every order-level per-date value unchanged. -/
theorem C10_order_level_dedup (m : List (String × Int)) (off : Int)
    (pre posts : List Order) (o : Order)
    (hproc : o.name ∈ (parseOrders pre m off).processed)
    (hk : ∀ t ∈ o.transactions, t.kind ∈ StdKinds)
    (d : Int) (k : String) (hkey : k ∈ OrderLevelKeys) :
    (parseOrders (pre ++ o :: posts) m off).by_date d k =
      (parseOrders (pre ++ posts) m off).by_date d k := by
  unfold parseOrders
  rw [List.foldl_append, List.foldl_append, List.foldl_cons]
  exact (foldOrders_agree m off posts _ _
    (stepOrder_agree_self m off _ o hproc hk)).2 d k hkey

theorem C10_order_level_dedup_witness :
    (oDupB.name ∈ (parseOrders [oDupA] [] 0).processed
      ∧ (∀ t ∈ oDupB.transactions, t.kind ∈ StdKinds)
      ∧ "gross_sales" ∈ OrderLevelKeys)
    ∧ (parseOrders ([oDupA] ++ oDupB :: []) [] 0).by_date 0 "gross_sales" =
        (parseOrders ([oDupA] ++ []) [] 0).by_date 0 "gross_sales" :=
  ⟨⟨by decide, by decide, by decide⟩,
    C10_order_level_dedup [] 0 [oDupA] [] oDupB (by decide) (by decide) 0
      "gross_sales" (by decide)⟩
